import Mathlib

/-!
Shallow embedding of src/.github/workflows/sync_tmdb.py.

The script reads two credentials from the environment, performs five HTTP
GET requests against the TMDB API, writes each successful response body to
a JSON file under data/, then writes a JSON summary (update_info.json) and
a text summary (last_update.txt), and exits with code 0 or 1.

The embedding makes the external world explicit as an Env record: the two
environment variables, an oracle giving the response of each endpoint, an
oracle saying whether a given file write succeeds, and the two clock
readings used in the outputs. Running main on an Env yields the list of
outgoing requests, the files written, and the process outcome.
-/

namespace SyncTmdb

/-- Parsed JSON values, as produced by response.json() in the script.
Numbers are modelled as integers (the claims only involve integers);
objects are association lists in insertion order, keys unique, matching
the dicts produced by the json module. -/
inductive Json where
  | null : Json
  | bool (b : Bool) : Json
  | num (n : Int) : Json
  | str (s : String) : Json
  | arr (xs : List Json) : Json
  | obj (kvs : List (String × Json)) : Json

/-- First-match lookup in an association list; with unique keys this is
the lookup of a Python dict. -/
def jsonLookup : List (String × Json) → String → Option Json
  | [], _ => none
  | (k, v) :: kvs, key => if k == key then some v else jsonLookup kvs key

/-- Field access on a JSON object. -/
def getField : Json → String → Option Json
  | .obj kvs, key => jsonLookup kvs key
  | _, _ => none

/-- data.get(key, dflt) in Python: on a dict, the value under the key or
the default; on any other value the attribute access raises, modelled as
none. -/
def dictGet : Json → String → Json → Option Json
  | .obj kvs, key, dflt => some ((jsonLookup kvs key).getD dflt)
  | _, _, _ => none

/-- len(v) in Python: defined on strings (code points), lists and dicts;
raises TypeError on numbers, booleans and None, modelled as none. -/
def pyLen : Json → Option Nat
  | .str s => some s.length
  | .arr xs => some xs.length
  | .obj kvs => some kvs.length
  | _ => none

/-- Outcome of the HTTP GET plus response.json() for one endpoint:
err covers a transport error, a non-2xx status raised by
raise_for_status, and a body that fails to parse as JSON; ok carries the
parsed body. -/
inductive FetchResp where
  | err (reason : String)
  | ok (body : Json)

/-- The external world of one run. -/
structure Env where
  TMDB_API_KEY : Option String
  TMDB_BEARER_TOKEN : Option String
  response : String → FetchResp
  writeOk : String → Bool
  nowIso : String
  nowText : String

/-- Python truthiness of os.environ.get: None and the empty string are
falsy, every other string is truthy. -/
def truthy : Option String → Bool
  | none => false
  | some s => !(s == "")

def TMDB_BASE_URL : String := "https://api.themoviedb.org/3"

/-- One outgoing HTTP GET request as assembled in download_tmdb_endpoint:
the url and the fixed query parameters and headers. -/
structure Request where
  url : String
  language : String
  page : Nat
  authorization : String
  accept : String
  userAgent : String
deriving DecidableEq

def mkRequest (token endpoint : String) : Request :=
  { url := TMDB_BASE_URL ++ endpoint
    language := "zh-CN"
    page := 1
    authorization := "Bearer " ++ token
    accept := "application/json"
    userAgent := "HappyTube-GitHub-Sync/1.0" }

/-- Result of one call to download_tmdb_endpoint: the request it issued,
the raw file it wrote (path and JSON value), if any, and the returned
pair (success, records). -/
structure DLResult where
  request : Request
  fileWrite : Option (String × Json)
  success : Bool
  records : Nat

/-- download_tmdb_endpoint(endpoint, filename). The order of effects
follows the source: request, raise_for_status, response.json(), makedirs,
json.dump to data/filename, and last the line
results_count = len(data.get("results", [])).

Both except clauses return (False, 0): a transport or HTTP or parse
error, a failed file write (OSError is an Exception), and a TypeError or
AttributeError raised by the len line are all converted to a failure.
Note that when the len line raises, the file has already been written. -/
def download_tmdb_endpoint (env : Env) (endpoint filename : String) : DLResult :=
  let req := mkRequest (env.TMDB_BEARER_TOKEN.getD "") endpoint
  match env.response endpoint with
  | .err _ => { request := req, fileWrite := none, success := false, records := 0 }
  | .ok data =>
    let filepath := "data/" ++ filename
    if env.writeOk filepath then
      match dictGet data "results" (.arr []) with
      | none =>
        { request := req, fileWrite := some (filepath, data), success := false, records := 0 }
      | some rv =>
        match pyLen rv with
        | none =>
          { request := req, fileWrite := some (filepath, data), success := false, records := 0 }
        | some n =>
          { request := req, fileWrite := some (filepath, data), success := true, records := n }
    else
      { request := req, fileWrite := none, success := false, records := 0 }

/-- The five configured (endpoint, filename) pairs, in source order. -/
def endpoints : List (String × String) :=
  [("/movie/popular", "movies_popular_page1.json"),
   ("/movie/top_rated", "movies_top_rated_page1.json"),
   ("/movie/now_playing", "movies_now_playing_page1.json"),
   ("/tv/popular", "tv_popular_page1.json"),
   ("/tv/top_rated", "tv_top_rated_page1.json")]

/-- The five downloads performed by the loop in main, in order. -/
def fetchResults (env : Env) : List DLResult :=
  endpoints.map (fun p => download_tmdb_endpoint env p.1 p.2)

/-- The accumulation loop of main: starting from the pair
(success_count, total_records), each successful download increments the
count and adds its records. -/
def tally : Nat × Nat → List DLResult → Nat × Nat
  | acc, [] => acc
  | acc, d :: ds => tally (if d.success then (acc.1 + 1, acc.2 + d.records) else acc) ds

def success_count (env : Env) : Nat := (tally (0, 0) (fetchResults env)).1

def total_records (env : Env) : Nat := (tally (0, 0) (fetchResults env)).2

/-- The update_info dict assembled in main. -/
def update_info (env : Env) : Json :=
  .obj
    [("last_update", .str env.nowIso),
     ("total_files", .num (endpoints.length : Int)),
     ("success_files", .num (success_count env : Int)),
     ("total_records", .num (total_records env : Int)),
     ("files", .arr (endpoints.map (fun p => .str p.2))),
     ("api_status", .str (if 0 < success_count env then "success" else "failed"))]

/-- The three lines written to data/last_update.txt. -/
def last_update_text (env : Env) : String :=
  "Last updated: " ++ env.nowText ++ "\n" ++
  "Success: " ++ toString (success_count env) ++ "/" ++ toString endpoints.length ++
  " files\n" ++
  "Total records: " ++ toString (total_records env) ++ "\n"

/-- One character of the JSON string escaping performed by json.dump:
quote, backslash and the common control characters are escaped, every
other character is passed through unchanged (ensure_ascii=False, so
non-ASCII characters are not escaped). -/
def escapeChar (c : Char) : String :=
  if c = '"' then "\\\""
  else if c = '\\' then "\\\\"
  else if c = '\n' then "\\n"
  else if c = '\t' then "\\t"
  else if c = '\r' then "\\r"
  else String.singleton c

def escapeString (s : String) : String :=
  "\"" ++ String.join (s.data.map escapeChar) ++ "\""

def indentStr (n : Nat) : String := String.mk (List.replicate n ' ')

mutual

/-- Serialization performed by json.dump(data, f, ensure_ascii=False,
indent=2): each array element and object member on its own line, indented
two further spaces, item separator a comma at end of line, key separator
a colon and a space; empty containers are kept on one line. -/
def dumpVal (ind : Nat) : Json → String
  | .null => "null"
  | .bool true => "true"
  | .bool false => "false"
  | .num n => toString n
  | .str s => escapeString s
  | .arr [] => "[]"
  | .arr (x :: xs) =>
    "[\n" ++ indentStr (ind + 2) ++ dumpVal (ind + 2) x ++ dumpItems (ind + 2) xs ++
    "\n" ++ indentStr ind ++ "]"
  | .obj [] => "\x7b\x7d"
  | .obj ((k, v) :: kvs) =>
    "\x7b\n" ++ indentStr (ind + 2) ++ escapeString k ++ ": " ++ dumpVal (ind + 2) v ++
    dumpPairs (ind + 2) kvs ++ "\n" ++ indentStr ind ++ "\x7d"

/-- Remaining array elements, each preceded by a comma and a newline. -/
def dumpItems (ind : Nat) : List Json → String
  | [] => ""
  | x :: xs => ",\n" ++ indentStr ind ++ dumpVal ind x ++ dumpItems ind xs

/-- Remaining object members, each preceded by a comma and a newline. -/
def dumpPairs (ind : Nat) : List (String × Json) → String
  | [] => ""
  | (k, v) :: kvs =>
    ",\n" ++ indentStr ind ++ escapeString k ++ ": " ++ dumpVal ind v ++ dumpPairs ind kvs

end

/-- Text written to the raw file of one endpoint. -/
def dumps (v : Json) : String := dumpVal 0 v

/-- JSON whitespace. -/
def isWs (c : Char) : Bool := c == ' ' || c == '\n' || c == '\t' || c == '\r'

def skipWs : List Char → List Char
  | c :: cs => if isWs c then skipWs cs else c :: cs
  | [] => []

/-- Reverse of escapeChar, for the escape sequences the serializer can
produce. -/
def unescape (c : Char) : Option Char :=
  if c = '"' then some '"'
  else if c = '\\' then some '\\'
  else if c = '/' then some '/'
  else if c = 'n' then some '\n'
  else if c = 't' then some '\t'
  else if c = 'r' then some '\r'
  else none

/-- Body of a JSON string literal up to its closing quote. -/
def parseStringChars : List Char → Option (String × List Char)
  | [] => none
  | '"' :: rest => some ("", rest)
  | '\\' :: c :: rest =>
    match unescape c, parseStringChars rest with
    | some ch, some (s, r) => some (String.mk (ch :: s.data), r)
    | _, _ => none
  | c :: rest =>
    match parseStringChars rest with
    | some (s, r) => some (String.mk (c :: s.data), r)
    | none => none

/-- Longest digit run, accumulating its value. -/
def parseDigits (acc : Nat) : List Char → Nat × List Char
  | c :: cs => if c.isDigit then parseDigits (acc * 10 + (c.toNat - 48)) cs else (acc, c :: cs)
  | [] => (acc, [])

mutual

/-- Fuel-bounded parser for the JSON fragment the serializer emits:
null, booleans, integers, strings, arrays and objects, with
insignificant whitespace. Returns the value and the unconsumed input. -/
def parseVal : Nat → List Char → Option (Json × List Char)
  | 0, _ => none
  | fuel + 1, cs =>
    match skipWs cs with
    | 'n' :: 'u' :: 'l' :: 'l' :: rest => some (.null, rest)
    | 't' :: 'r' :: 'u' :: 'e' :: rest => some (.bool true, rest)
    | 'f' :: 'a' :: 'l' :: 's' :: 'e' :: rest => some (.bool false, rest)
    | '"' :: rest =>
      match parseStringChars rest with
      | some (s, r) => some (.str s, r)
      | none => none
    | '[' :: rest =>
      match skipWs rest with
      | ']' :: r => some (.arr [], r)
      | cs₁ => match parseItems fuel cs₁ with
               | some (xs, r) => some (.arr xs, r)
               | none => none
    | '\x7b' :: rest =>
      match skipWs rest with
      | '\x7d' :: r => some (.obj [], r)
      | cs₁ => match parseMembers fuel cs₁ with
               | some (kvs, r) => some (.obj kvs, r)
               | none => none
    | '-' :: c :: rest =>
      if c.isDigit then
        match parseDigits (c.toNat - 48) rest with
        | (n, r) => some (.num (-(n : Int)), r)
      else none
    | c :: rest =>
      if c.isDigit then
        match parseDigits (c.toNat - 48) rest with
        | (n, r) => some (.num (n : Int), r)
      else none
    | [] => none

/-- One or more comma-separated array elements followed by a closing
bracket. -/
def parseItems : Nat → List Char → Option (List Json × List Char)
  | 0, _ => none
  | fuel + 1, cs =>
    match parseVal fuel cs with
    | some (v, r) =>
      match skipWs r with
      | ',' :: r₁ =>
        match parseItems fuel r₁ with
        | some (vs, r₂) => some (v :: vs, r₂)
        | none => none
      | ']' :: r₁ => some ([v], r₁)
      | _ => none
    | none => none

/-- One or more comma-separated object members followed by a closing
brace. -/
def parseMembers : Nat → List Char → Option (List (String × Json) × List Char)
  | 0, _ => none
  | fuel + 1, cs =>
    match skipWs cs with
    | '"' :: rest =>
      match parseStringChars rest with
      | some (k, r) =>
        match skipWs r with
        | ':' :: r₁ =>
          match parseVal fuel r₁ with
          | some (v, r₂) =>
            match skipWs r₂ with
            | ',' :: r₃ =>
              match parseMembers fuel r₃ with
              | some (kvs, r₄) => some ((k, v) :: kvs, r₄)
              | none => none
            | '\x7d' :: r₃ => some ([(k, v)], r₃)
            | _ => none
          | none => none
        | _ => none
      | none => none
    | _ => none

end

/-- json.loads on file contents: parse one value, allow trailing
whitespace, reject anything else left over. -/
def parseJson (s : String) : Option Json :=
  match parseVal (2 * s.length + 2) s.data with
  | some (v, rest) => if skipWs rest = [] then some v else none
  | none => none

/-- How the process ends: exited c is a call to exit(c); aborted f is an
uncaught exception raised while writing file f (the interpreter then
terminates with OS exit status 1). -/
inductive RunOutcome where
  | exited (code : Nat)
  | aborted (filepath : String)
deriving DecidableEq

/-- Observable result of one run: the outgoing requests in order, the
JSON files written (path and value) in order, the text files written,
and the process outcome. -/
structure RunResult where
  requests : List Request
  jsonWrites : List (String × Json)
  textWrites : List (String × String)
  outcome : RunOutcome

/-- OS-level exit status of the run: the code passed to exit, or 1 for a
run killed by an uncaught exception. -/
def osExitCode (r : RunResult) : Nat :=
  match r.outcome with
  | .exited c => c
  | .aborted _ => 1

/-- main(). Credentials are checked first (exit 1 when either is falsy,
before any request). Then every endpoint is downloaded in order, the
counters are accumulated, update_info.json and last_update.txt are
written without any exception handler, and the three-branch exit logic
runs: exit(1) when success_count == 0, exit(0) otherwise. -/
def main (env : Env) : RunResult :=
  if truthy env.TMDB_API_KEY && truthy env.TMDB_BEARER_TOKEN then
    let dls := fetchResults env
    let reqs := dls.map (fun d => d.request)
    let rawWrites := dls.filterMap (fun d => d.fileWrite)
    if env.writeOk "data/update_info.json" then
      if env.writeOk "data/last_update.txt" then
        { requests := reqs
          jsonWrites := rawWrites ++ [("data/update_info.json", update_info env)]
          textWrites := [("data/last_update.txt", last_update_text env)]
          outcome := .exited
            (if success_count env == 0 then 1
             else if success_count env < endpoints.length then 0
             else 0) }
      else
        { requests := reqs
          jsonWrites := rawWrites ++ [("data/update_info.json", update_info env)]
          textWrites := []
          outcome := .aborted "data/last_update.txt" }
    else
      { requests := reqs
        jsonWrites := rawWrites
        textWrites := []
        outcome := .aborted "data/update_info.json" }
  else
    { requests := [], jsonWrites := [], textWrites := [], outcome := .exited 1 }

/-! Concrete environments used to instantiate the theorems. -/

/-- A fully healthy world: both credentials set, every endpoint answers
with a two-element results array, every file write succeeds. -/
def baseEnv : Env :=
  { TMDB_API_KEY := some "k0"
    TMDB_BEARER_TOKEN := some "t0"
    response := fun _ => .ok (.obj [("results", .arr [.num 1, .num 2])])
    writeOk := fun _ => true
    nowIso := "2026-01-01T00:00:00+00:00"
    nowText := "2026-01-01 00:00:00 UTC" }

/-- baseEnv with the API key environment variable unset. -/
def envNoKey : Env := { baseEnv with TMDB_API_KEY := none }

/-- baseEnv except that writing data/update_info.json fails. -/
def envInfoWriteFails : Env :=
  { baseEnv with writeOk := fun p => !(p == "data/update_info.json") }

/-- baseEnv except that writing the first raw file fails. -/
def envRawWriteFails : Env :=
  { baseEnv with writeOk := fun p => !(p == "data/movies_popular_page1.json") }

/-- baseEnv except every endpoint answers with a results field holding a
string: len("abc") is 3, so the download succeeds with records 3. -/
def envResultsString : Env :=
  { baseEnv with response := fun _ => .ok (.obj [("results", .str "abc")]) }

/-- One endpoint answers with a results field holding a number, the rest
fail on the network: json.dump writes the file and then
len(data.get("results", [])) raises TypeError, so the download is counted
as a failure although its raw file exists. -/
def envResultsNumber : Env :=
  { baseEnv with
    response := fun e =>
      if e == "/movie/popular" then .ok (.obj [("results", .num 42)])
      else .err "connection error" }

/-- The round-trip payload of the spec. -/
def payloadRT : Json := .obj [("results", .arr [.num 1, .num 2, .num 3])]

/-- baseEnv with every endpoint answering the round-trip payload. -/
def envRT : Env := { baseEnv with response := fun _ => .ok payloadRT }

/-! Helper lemmas shared by the claim theorems. -/

/-- The accumulation loop of main computes, from any starting pair, the
number of successful downloads and the sum of their records. -/
lemma tally_eq (ds : List DLResult) (a b : Nat) :
    tally (a, b) ds =
      (a + (ds.filter (fun d => d.success)).length,
       b + ((ds.filter (fun d => d.success)).map (fun d => d.records)).sum) := by
  induction ds generalizing a b with
  | nil => simp [tally]
  | cons d ds ih =>
    cases hs : d.success
    · simp [tally, hs, ih, List.filter_cons]
    · simp [tally, hs, ih, List.filter_cons, Prod.ext_iff]
      omega

/-- Every branch of download_tmdb_endpoint issues the same request,
built from the bearer token and the endpoint path. -/
lemma download_request (env : Env) (e f : String) :
    (download_tmdb_endpoint env e f).request =
      mkRequest (env.TMDB_BEARER_TOKEN.getD "") e := by
  unfold download_tmdb_endpoint
  cases env.response e with
  | err r => rfl
  | ok data =>
    cases hw : env.writeOk ("data/" ++ f)
    · simp [hw]
    · simp only [hw, if_true]
      split
      · rfl
      · split <;> rfl

/-- Whenever the credential check passes and the write of
data/update_info.json succeeds, main records that write. -/
lemma update_info_mem (env : Env)
    (hc : (truthy env.TMDB_API_KEY && truthy env.TMDB_BEARER_TOKEN) = true)
    (hw : env.writeOk "data/update_info.json" = true) :
    ("data/update_info.json", update_info env) ∈ (SyncTmdb.main env).jsonWrites := by
  unfold main
  rw [hc]
  cases ht : env.writeOk "data/last_update.txt" <;> simp [hw, ht]

/-- A download whose request fails returns failure and writes nothing. -/
lemma download_err (env : Env) (e f r : String)
    (hr : env.response e = .err r) :
    download_tmdb_endpoint env e f =
      { request := mkRequest (env.TMDB_BEARER_TOKEN.getD "") e, fileWrite := none,
        success := false, records := 0 } := by
  unfold download_tmdb_endpoint
  rw [hr]

/-- A download whose raw file write fails returns failure and records no
write. -/
lemma download_nowrite (env : Env) (e f : String) (body : Json)
    (hr : env.response e = .ok body)
    (hw : env.writeOk ("data/" ++ f) = false) :
    download_tmdb_endpoint env e f =
      { request := mkRequest (env.TMDB_BEARER_TOKEN.getD "") e, fileWrite := none,
        success := false, records := 0 } := by
  unfold download_tmdb_endpoint
  rw [hr]
  simp [hw]

/-- A download whose request and raw file write both succeed writes the
body and then stands or falls with the len(data.get("results", []))
line. -/
lemma download_ok (env : Env) (e f : String) (body : Json)
    (hr : env.response e = .ok body)
    (hw : env.writeOk ("data/" ++ f) = true) :
    download_tmdb_endpoint env e f =
      (match dictGet body "results" (.arr []) with
       | none =>
         { request := mkRequest (env.TMDB_BEARER_TOKEN.getD "") e,
           fileWrite := some ("data/" ++ f, body), success := false, records := 0 }
       | some rv =>
         match pyLen rv with
         | none =>
           { request := mkRequest (env.TMDB_BEARER_TOKEN.getD "") e,
             fileWrite := some ("data/" ++ f, body), success := false, records := 0 }
         | some n =>
           { request := mkRequest (env.TMDB_BEARER_TOKEN.getD "") e,
             fileWrite := some ("data/" ++ f, body), success := true, records := n }) := by
  unfold download_tmdb_endpoint
  rw [hr]
  simp [hw]

/-! Claim theorems. -/

/-- C6: in every run the counters satisfy success_count at most
totalEndpoints, totalEndpoints is 5, and total_records is the sum of the
records of exactly the successful downloads (failed downloads contribute
nothing). -/
theorem C6_counter_invariants (env : Env) :
    success_count env ≤ endpoints.length ∧ endpoints.length = 5 ∧
    total_records env =
      (((fetchResults env).filter (fun d => d.success)).map (fun d => d.records)).sum := by
  refine ⟨?_, rfl, ?_⟩
  · unfold success_count
    rw [tally_eq]
    simpa using List.length_filter_le (fun d => d.success) (fetchResults env)
  · unfold total_records
    rw [tally_eq]
    simp

/-- C7: whenever the API key or the bearer token is absent or empty, the
run exits with code 1, performs no network request and writes no file. -/
theorem C7_missing_credentials (env : Env)
    (h : truthy env.TMDB_API_KEY = false ∨ truthy env.TMDB_BEARER_TOKEN = false) :
    SyncTmdb.main env =
      { requests := [], jsonWrites := [], textWrites := [], outcome := .exited 1 } := by
  unfold main
  rcases h with h | h <;> simp [h]

/-- Witness for C7 at the environment with the API key unset. -/
theorem C7_missing_credentials_witness :
    SyncTmdb.main envNoKey =
      { requests := [], jsonWrites := [], textWrites := [], outcome := .exited 1 } :=
  C7_missing_credentials envNoKey (Or.inl rfl)

/-- C9: for the payload with results [1, 2, 3], the download writes the
raw file with that payload and records 3; serializing the payload the way
json.dump does and parsing the text back yields the payload again, whose
results field is a 3-element array. -/
theorem C9_round_trip :
    (download_tmdb_endpoint envRT "/movie/popular" "movies_popular_page1.json").fileWrite =
      some ("data/movies_popular_page1.json", payloadRT) ∧
    (download_tmdb_endpoint envRT "/movie/popular" "movies_popular_page1.json").success = true ∧
    (download_tmdb_endpoint envRT "/movie/popular" "movies_popular_page1.json").records = 3 ∧
    dumps payloadRT = "\x7b\n  \"results\": [\n    1,\n    2,\n    3\n  ]\n\x7d" ∧
    parseJson (dumps payloadRT) = some payloadRT ∧
    getField payloadRT "results" = some (.arr [.num 1, .num 2, .num 3]) :=
  ⟨rfl, rfl, rfl, rfl, rfl, rfl⟩

/-- C1 counterexample: with valid credentials, all five downloads
successful, but the write of data/update_info.json failing, the run does
not exit with code 0 as the claim requires for a run with at least one
success; it dies on the uncaught filesystem exception. -/
theorem C1_counterexample :
    0 < success_count envInfoWriteFails ∧
    (SyncTmdb.main envInfoWriteFails).outcome = .aborted "data/update_info.json" ∧
    (SyncTmdb.main envInfoWriteFails).outcome ≠ .exited 0 :=
  ⟨by decide, rfl, by decide⟩

/-- C1 amended: the OS exit status is 1 when a credential is missing, 1
when the summary writes fail (uncaught exception), 1 when no endpoint
succeeded, and 0 when the credential check, the summary writes and at
least one endpoint succeeded; in particular no status other than 0 and 1
ever occurs. -/
theorem C1_exit_codes (env : Env) :
    osExitCode (SyncTmdb.main env) =
      (if truthy env.TMDB_API_KEY && truthy env.TMDB_BEARER_TOKEN then
        (if env.writeOk "data/update_info.json" && env.writeOk "data/last_update.txt" then
          (if success_count env = 0 then 1 else 0)
        else 1)
      else 1) := by
  unfold main
  cases hc : truthy env.TMDB_API_KEY && truthy env.TMDB_BEARER_TOKEN
  · simp [osExitCode]
  · cases hw₁ : env.writeOk "data/update_info.json"
    · simp [osExitCode, hw₁]
    · cases hw₂ : env.writeOk "data/last_update.txt"
      · simp [osExitCode, hw₁, hw₂]
      · by_cases hs : success_count env = 0 <;> simp [osExitCode, hw₁, hw₂, hs]

/-- C4: whenever the credential check passes and the summary write
succeeds, main writes update_info.json, and its api_status field is the
string success exactly when at least one download succeeded and the
string failed exactly when none did. -/
theorem C4_api_status (env : Env)
    (hc : (truthy env.TMDB_API_KEY && truthy env.TMDB_BEARER_TOKEN) = true)
    (hw : env.writeOk "data/update_info.json" = true) :
    ("data/update_info.json", update_info env) ∈ (SyncTmdb.main env).jsonWrites ∧
    (getField (update_info env) "api_status" = some (.str "success") ↔
      0 < success_count env) ∧
    (getField (update_info env) "api_status" = some (.str "failed") ↔
      success_count env = 0) := by
  refine ⟨update_info_mem env hc hw, ?_, ?_⟩ <;>
  · have hfield : getField (update_info env) "api_status" =
        some (.str (if 0 < success_count env then "success" else "failed")) := rfl
    rw [hfield]
    by_cases hs : 0 < success_count env <;> simp [hs] <;> omega

/-- Witness for C4 at the healthy environment, where all five downloads
succeed. -/
theorem C4_api_status_witness :
    ("data/update_info.json", update_info baseEnv) ∈ (SyncTmdb.main baseEnv).jsonWrites ∧
    (getField (update_info baseEnv) "api_status" = some (.str "success") ↔
      0 < success_count baseEnv) ∧
    (getField (update_info baseEnv) "api_status" = some (.str "failed") ↔
      success_count baseEnv = 0) :=
  C4_api_status baseEnv (by decide) rfl

/-- C8: whenever the credential check passes, the files field of the
update_info object is exactly the five configured filenames in
configuration order, its total_files field is 5, and when the summary
write succeeds the object is written to data/update_info.json. -/
theorem C8_files_field (env : Env)
    (hc : (truthy env.TMDB_API_KEY && truthy env.TMDB_BEARER_TOKEN) = true) :
    getField (update_info env) "files" =
      some (.arr [.str "movies_popular_page1.json", .str "movies_top_rated_page1.json",
                  .str "movies_now_playing_page1.json", .str "tv_popular_page1.json",
                  .str "tv_top_rated_page1.json"]) ∧
    getField (update_info env) "total_files" = some (.num 5) ∧
    (env.writeOk "data/update_info.json" = true →
      ("data/update_info.json", update_info env) ∈ (SyncTmdb.main env).jsonWrites) :=
  ⟨rfl, rfl, fun hw => update_info_mem env hc hw⟩

/-- Witness for C8 at the healthy environment. -/
theorem C8_files_field_witness :
    getField (update_info baseEnv) "files" =
      some (.arr [.str "movies_popular_page1.json", .str "movies_top_rated_page1.json",
                  .str "movies_now_playing_page1.json", .str "tv_popular_page1.json",
                  .str "tv_top_rated_page1.json"]) ∧
    getField (update_info baseEnv) "total_files" = some (.num 5) ∧
    (baseEnv.writeOk "data/update_info.json" = true →
      ("data/update_info.json", update_info baseEnv) ∈ (SyncTmdb.main baseEnv).jsonWrites) :=
  C8_files_field baseEnv (by decide)

/-- C10: two runs that differ only in the value of a non-empty API key
produce identical requests, identical file writes and the same outcome:
the key is only tested for truthiness and flows nowhere else. -/
theorem C10_api_key_noninterference (env : Env) (k₁ k₂ : String)
    (h₁ : k₁ ≠ "") (h₂ : k₂ ≠ "") :
    SyncTmdb.main { env with TMDB_API_KEY := some k₁ } =
    SyncTmdb.main { env with TMDB_API_KEY := some k₂ } := by
  have t₁ : truthy (some k₁) = true := by simp [truthy, h₁]
  have t₂ : truthy (some k₂) = true := by simp [truthy, h₂]
  unfold main
  simp only [t₁, t₂]
  rfl

/-- Witness for C10: the full run result is unchanged when the API key
value flips between two concrete non-empty strings. -/
theorem C10_api_key_noninterference_witness :
    SyncTmdb.main { baseEnv with TMDB_API_KEY := some "a" } =
    SyncTmdb.main { baseEnv with TMDB_API_KEY := some "b" } :=
  C10_api_key_noninterference baseEnv "a" "b" (by decide) (by decide)

/-- The requests issued by the download loop are the five configured
endpoints with the fixed parameters and headers, in configuration
order. -/
lemma requests_eq (env : Env) :
    (fetchResults env).map (fun d => d.request) =
      endpoints.map (fun p => mkRequest (env.TMDB_BEARER_TOKEN.getD "") p.1) := by
  unfold fetchResults
  rw [List.map_map]
  simp [Function.comp, download_request]

/-- C2 counterexample: a successful fetch whose results field is the
string abc is counted as a Success with recordCount 3, not 0, because
len of a Python string is its character count. -/
theorem C2_counterexample :
    (download_tmdb_endpoint envResultsString "/movie/popular"
        "movies_popular_page1.json").success = true ∧
    (download_tmdb_endpoint envResultsString "/movie/popular"
        "movies_popular_page1.json").records = 3 ∧
    (download_tmdb_endpoint envResultsString "/movie/popular"
        "movies_popular_page1.json").records ≠ 0 :=
  ⟨rfl, rfl, by decide⟩

/-- C2 amended: for a payload that is a JSON object whose raw write
succeeds, the download succeeds with records 0 when results is absent,
and with records the length of the value when results holds an array, a
string or an object (the three Python values with a len); when results
holds a number, a boolean or null, the len call raises TypeError and the
download is counted as a failure, although the raw file has already been
written. -/
theorem C2_record_count (env : Env) (e f : String) (kvs : List (String × Json))
    (hr : env.response e = .ok (.obj kvs))
    (hw : env.writeOk ("data/" ++ f) = true) :
    (jsonLookup kvs "results" = none →
      (download_tmdb_endpoint env e f).success = true ∧
      (download_tmdb_endpoint env e f).records = 0) ∧
    (∀ xs, jsonLookup kvs "results" = some (.arr xs) →
      (download_tmdb_endpoint env e f).success = true ∧
      (download_tmdb_endpoint env e f).records = xs.length) ∧
    (∀ s, jsonLookup kvs "results" = some (.str s) →
      (download_tmdb_endpoint env e f).success = true ∧
      (download_tmdb_endpoint env e f).records = s.length) ∧
    (∀ kvs₂, jsonLookup kvs "results" = some (.obj kvs₂) →
      (download_tmdb_endpoint env e f).success = true ∧
      (download_tmdb_endpoint env e f).records = kvs₂.length) ∧
    (∀ n, jsonLookup kvs "results" = some (.num n) →
      (download_tmdb_endpoint env e f).success = false ∧
      (download_tmdb_endpoint env e f).fileWrite = some ("data/" ++ f, .obj kvs)) ∧
    (∀ b, jsonLookup kvs "results" = some (.bool b) →
      (download_tmdb_endpoint env e f).success = false) ∧
    (jsonLookup kvs "results" = some .null →
      (download_tmdb_endpoint env e f).success = false) := by
  have hdl := download_ok env e f (.obj kvs) hr hw
  refine ⟨?_, ?_, ?_, ?_, ?_, ?_, ?_⟩
  · intro h
    rw [hdl]
    simp [dictGet, h, pyLen]
  · intro xs h
    rw [hdl]
    simp [dictGet, h, pyLen]
  · intro s h
    rw [hdl]
    simp [dictGet, h, pyLen]
  · intro kvs₂ h
    rw [hdl]
    simp [dictGet, h, pyLen]
  · intro n h
    rw [hdl]
    simp [dictGet, h, pyLen]
  · intro b h
    rw [hdl]
    simp [dictGet, h, pyLen]
  · intro h
    rw [hdl]
    simp [dictGet, h, pyLen]

/-- Witness for C2 amended: at the healthy environment the first
endpoint succeeds with a two-element results array and records 2. -/
theorem C2_record_count_witness :
    (download_tmdb_endpoint baseEnv "/movie/popular"
        "movies_popular_page1.json").success = true ∧
    (download_tmdb_endpoint baseEnv "/movie/popular"
        "movies_popular_page1.json").records = 2 :=
  (C2_record_count baseEnv "/movie/popular" "movies_popular_page1.json"
      [("results", .arr [.num 1, .num 2])] rfl rfl).2.1 [.num 1, .num 2] rfl

/-- C3 counterexample: with valid credentials and a run in which the
write of the raw file data/movies_popular_page1.json fails, the run does
not terminate with a non-zero status: the OSError is swallowed by the
per-endpoint handler, the other four endpoints succeed, and the process
exits 0. -/
theorem C3_counterexample :
    envRawWriteFails.writeOk "data/movies_popular_page1.json" = false ∧
    (SyncTmdb.main envRawWriteFails).outcome = .exited 0 ∧
    osExitCode (SyncTmdb.main envRawWriteFails) = 0 :=
  ⟨rfl, rfl, rfl⟩

/-- C3 amended: a write failure of data/update_info.json or of
data/last_update.txt propagates uncaught and ends the run with a
non-zero status, but a write failure of one of the five raw payload
files is caught by the per-endpoint except clause: that endpoint is
merely counted as failed, nothing is written for it, and the run goes
on. -/
theorem C3_write_failures (env : Env)
    (hc : (truthy env.TMDB_API_KEY && truthy env.TMDB_BEARER_TOKEN) = true) :
    (env.writeOk "data/update_info.json" = false →
      (SyncTmdb.main env).outcome = .aborted "data/update_info.json" ∧
      osExitCode (SyncTmdb.main env) = 1) ∧
    (env.writeOk "data/update_info.json" = true →
      env.writeOk "data/last_update.txt" = false →
      (SyncTmdb.main env).outcome = .aborted "data/last_update.txt" ∧
      osExitCode (SyncTmdb.main env) = 1) ∧
    (∀ e f body, env.response e = .ok body → env.writeOk ("data/" ++ f) = false →
      (download_tmdb_endpoint env e f).success = false ∧
      (download_tmdb_endpoint env e f).fileWrite = none) := by
  refine ⟨?_, ?_, ?_⟩
  · intro hw
    unfold main
    simp [hc, hw, osExitCode]
  · intro hw₁ hw₂
    unfold main
    simp [hc, hw₁, hw₂, osExitCode]
  · intro e f body hr hw
    rw [download_nowrite env e f body hr hw]
    exact ⟨rfl, rfl⟩

/-- Witness for C3 amended: at the environment where only the summary
write fails, the run aborts on data/update_info.json. -/
theorem C3_write_failures_witness :
    (SyncTmdb.main envInfoWriteFails).outcome = .aborted "data/update_info.json" ∧
    osExitCode (SyncTmdb.main envInfoWriteFails) = 1 :=
  (C3_write_failures envInfoWriteFails (by decide)).1 rfl

/-- C5 counterexample: a run with zero successful downloads in which a
raw JSON file is nevertheless written: the first endpoint returns a
payload whose results field is the number 42, so json.dump writes the
file and the subsequent len call fails the endpoint. -/
theorem C5_counterexample :
    success_count envResultsNumber = 0 ∧
    (SyncTmdb.main envResultsNumber).jsonWrites =
      [("data/movies_popular_page1.json", .obj [("results", .num 42)]),
       ("data/update_info.json", update_info envResultsNumber)] ∧
    (SyncTmdb.main envResultsNumber).outcome = .exited 1 :=
  ⟨rfl, rfl, rfl⟩

/-- C5 amended: every run past the credential check issues exactly the
five configured requests in configuration order regardless of failures;
a successful download always leaves its raw file, and a raw file exists
exactly when the endpoint returned a parseable body and the file write
succeeded, which can happen for an endpoint counted as failed. -/
theorem C5_attempts_and_writes (env : Env)
    (hc : (truthy env.TMDB_API_KEY && truthy env.TMDB_BEARER_TOKEN) = true) :
    (SyncTmdb.main env).requests =
      endpoints.map (fun p => mkRequest (env.TMDB_BEARER_TOKEN.getD "") p.1) ∧
    (∀ e f, (download_tmdb_endpoint env e f).success = true →
      ∃ body, env.response e = .ok body ∧
        (download_tmdb_endpoint env e f).fileWrite = some ("data/" ++ f, body)) ∧
    (∀ e f, ¬((download_tmdb_endpoint env e f).fileWrite = none) ↔
      ((∃ body, env.response e = .ok body) ∧ env.writeOk ("data/" ++ f) = true)) := by
  refine ⟨?_, ?_, ?_⟩
  · unfold main
    simp only [hc, if_true]
    split
    · split
      · exact requests_eq env
      · exact requests_eq env
    · exact requests_eq env
  · intro e f hs
    cases hr : env.response e with
    | err r =>
      rw [download_err env e f r hr] at hs
      exact absurd hs (by simp)
    | ok body =>
      cases hw : env.writeOk ("data/" ++ f) with
      | false =>
        rw [download_nowrite env e f body hr hw] at hs
        exact absurd hs (by simp)
      | true =>
        refine ⟨body, rfl, ?_⟩
        have hdl := download_ok env e f body hr hw
        rw [hdl] at hs ⊢
        rcases hdg : dictGet body "results" (.arr []) with _ | rv
        · simp [hdg] at hs
        · rcases hpl : pyLen rv with _ | n
          · simp [hdg, hpl] at hs
          · simp [hdg, hpl]
  · intro e f
    constructor
    · intro hnn
      cases hr : env.response e with
      | err r =>
        rw [download_err env e f r hr] at hnn
        exact absurd rfl hnn
      | ok body =>
        cases hw : env.writeOk ("data/" ++ f) with
        | false =>
          rw [download_nowrite env e f body hr hw] at hnn
          exact absurd rfl hnn
        | true => exact ⟨⟨body, rfl⟩, rfl⟩
    · rintro ⟨⟨body, hr⟩, hw⟩
      rw [download_ok env e f body hr hw]
      rcases hdg : dictGet body "results" (.arr []) with _ | rv <;> simp [hdg]
      rcases hpl : pyLen rv with _ | n <;> simp [hpl]

/-- Witness for C5 amended: at the healthy environment the request list
is the five configured requests. -/
theorem C5_attempts_and_writes_witness :
    (SyncTmdb.main baseEnv).requests =
      endpoints.map (fun p => mkRequest (baseEnv.TMDB_BEARER_TOKEN.getD "") p.1) :=
  (C5_attempts_and_writes baseEnv (by decide)).1

end SyncTmdb
